import Mathlib

/-!
Verification of the sprint-analytics query engine
(`dataframe_query_executor.py`) against its specification.

The pandas `DataFrame` is modelled as a `Table`: an ordered list of column
names plus an ordered list of rows, each row an association list from column
name to `Value`.  A `Value` is either a string cell, a numeric cell (exact
rational, standing for the float the code manipulates), or `null` (pandas
`NaN`).  Accessing a column a row does not carry yields `null`, matching a
`NaN` cell; operations whose Python original can raise (`KeyError` on a
missing column, `TypeError` on a string/number comparison) are embedded in
`Except String`.

The Python `round(x, 2)` is modelled exactly on rationals as round-half-to-even
at two decimal places (`round2`).
-/

namespace SprintQuery

/-- A cell of the table: a string, a number (exact rational), or `null`
(pandas `NaN` / missing). -/
inductive Value where
  | null : Value
  | str (s : String) : Value
  | num (q : ℚ) : Value
deriving DecidableEq, Repr

/-- One row of the DataFrame: an association list column-name ↦ cell. -/
abbrev Row := List (String × Value)

/-- The DataFrame: its column list and its rows, in order. -/
structure Table where
  cols : List String
  rows : List Row
deriving DecidableEq, Repr

/-- `df[c]` at one row: look the column up in the row, absent ↦ `null`. -/
def getCell (r : Row) (c : String) : Value :=
  (List.lookup c r).getD Value.null

/-- Pandas elementwise equality `series == v`: `NaN` compares unequal to
everything (itself included), and values of different dtypes are unequal. -/
def veq : Value → Value → Bool
  | Value.str a, Value.str b => a == b
  | Value.num a, Value.num b => a == b
  | _, _ => false

/-- Pandas elementwise `<`: defined within one dtype, false on `NaN` and on
mixed dtypes. -/
def vlt : Value → Value → Bool
  | Value.str a, Value.str b => a < b
  | Value.num a, Value.num b => a < b
  | _, _ => false

/-- Pandas elementwise `<=`: defined within one dtype, false on `NaN` and on
mixed dtypes. -/
def vle : Value → Value → Bool
  | Value.str a, Value.str b => a ≤ b
  | Value.num a, Value.num b => a ≤ b
  | _, _ => false

/-- One predicate of the `conditions` map of `_filter_data`: a scalar value
(equality), a list (membership), or an operator dict `\x7boperator, value\x7d`. -/
inductive FilterCond where
  | scalar (v : Value) : FilterCond
  | inList (vs : List Value) : FilterCond
  | cmp (op : String) (v : Value) : FilterCond
deriving DecidableEq, Repr

/-- Whether one row satisfies one predicate on column `c`
(the row-level semantics of the branches of `_filter_data`).
An unrecognised operator string falls through to equality, as in the final `else`
branch of the source. -/
def rowSat (c : String) (cond : FilterCond) (r : Row) : Bool :=
  match cond with
  | FilterCond.scalar v => veq (getCell r c) v
  | FilterCond.inList vs => vs.contains (getCell r c)
  | FilterCond.cmp op v =>
      if op = ">" then vlt v (getCell r c)
      else if op = "<" then vlt (getCell r c) v
      else if op = ">=" then vle v (getCell r c)
      else if op = "<=" then vle (getCell r c) v
      else if op = "!=" then !(veq (getCell r c) v)
      else veq (getCell r c) v

/-- `_filter_data`: fold the condition map over the table, each known column
narrowing the rows, an unknown column skipped (`continue`). -/
def filter_data : List (String × FilterCond) → Table → Table
  | [], t => t
  | (c, cond) :: rest, t =>
      if c ∈ t.cols then
        filter_data rest ⟨t.cols, t.rows.filter (rowSat c cond)⟩
      else
        filter_data rest t

/-- The conjunction `_filter_data` is meant to compute: every predicate whose
column the table has must hold; predicates on unknown columns are vacuous. -/
def condsHold (cols : List String) (conds : List (String × FilterCond)) (r : Row) : Bool :=
  conds.all (fun p => if p.1 ∈ cols then rowSat p.1 p.2 r else true)


/-! ### Rounding

The Python `round(x, 2)` rounds half to even at two decimal places; on exact
rationals this is `round2` below. -/

/-- Round a rational to the nearest integer, ties to the even integer
(written over `Rat.floor` so that concrete values evaluate by `decide`). -/
def roundHalfEven (x : ℚ) : ℤ :=
  if x - (x.floor : ℚ) < 1/2 then x.floor
  else if 1/2 < x - (x.floor : ℚ) then x.floor + 1
  else if x.floor % 2 = 0 then x.floor else x.floor + 1

/-- The Python `round(x, 2)` on exact rationals. -/
def round2 (x : ℚ) : ℚ := (roundHalfEven (x * 100) : ℚ) / 100


/-! ### Numeric columns -/

/-- A cell as a summand: pandas `sum` skips `NaN` (and a string would make the
sum non-numeric; summed numeric columns hold only numbers and `NaN`). -/
def numOrZero : Value → ℚ
  | Value.num q => q
  | _ => 0

/-- `df[c].sum()` over a list of rows. -/
def sumCol (rows : List Row) (c : String) : ℚ :=
  (rows.map (fun r => numOrZero (getCell r c))).sum


/-! ### Metric calculator -/

/-- The row-level test `df["Status"] == "Done"`. -/
def isDone (r : Row) : Bool := veq (getCell r "Status") (Value.str "Done")

/-- The `sprint_id`-conditioned sub-table used by every metric:
`self._filter_data(\x7b"Sprint_ID": sprint_id\x7d) if sprint_id else self.df`. -/
def sprint_rows (t : Table) (sprint_id : Option String) : List Row :=
  match sprint_id with
  | none => t.rows
  | some s => (filter_data [("Sprint_ID", FilterCond.scalar (Value.str s))] t).rows

/-- `_calc_completion_rate`: completed/total*100 over tickets (row counts)
or story points, 0 when the total is not positive, rounded to 2 places. -/
def calc_completion_rate (t : Table) (sprint_id : Option String) (mode : String) : ℚ :=
  let rs := sprint_rows t sprint_id
  let ct : ℚ × ℚ :=
    if mode = "tickets" then
      (((rs.filter isDone).length : ℚ), (rs.length : ℚ))
    else
      (sumCol (rs.filter isDone) "Story_Points", sumCol rs "Story_Points")
  round2 (if 0 < ct.2 then ct.1 / ct.2 * 100 else 0)

/-- `_calc_velocity`: sum of story points of Done rows, rounded to 2 places. -/
def calc_velocity (t : Table) (sprint_id : Option String) : ℚ :=
  round2 (sumCol ((sprint_rows t sprint_id).filter isDone) "Story_Points")

/-- `_calculate_health_score`: start from 100 and subtract the completion,
critical-bug, high-priority-incomplete and to-do deductions in sequence, then
round and clamp into [0, 100]. -/
def calculate_health_score (rows : List Row) : ℚ :=
  let total := sumCol rows "Story_Points"
  let completed := sumCol (rows.filter isDone) "Story_Points"
  let completion_rate := if 0 < total then completed / total * 100 else 0
  let score1 := 100 - max 0 ((70 - completion_rate) * (1/2))
  let critical_bugs := (rows.filter (fun r =>
    veq (getCell r "Type") (Value.str "Bug") &&
    veq (getCell r "Priority") (Value.str "Critical"))).length
  let score2 := score1 - critical_bugs * 10
  let high_priority_incomplete := (rows.filter (fun r =>
    veq (getCell r "Priority") (Value.str "High") &&
    !(veq (getCell r "Status") (Value.str "Done")))).length
  let score3 := score2 - high_priority_incomplete * 5
  let todo_count := (rows.filter (fun r =>
    veq (getCell r "Status") (Value.str "To Do"))).length
  let total_count := rows.length
  let todo_ratio := if 0 < total_count then (todo_count : ℚ) / total_count * 100 else 0
  let score4 := if 30 < todo_ratio then score3 - (todo_ratio - 30) * (1/2) else score3
  max 0 (min 100 (round2 score4))

/-- The record `_calc_sprint_health` returns. -/
structure SprintHealth where
  sprint_id : String
  completion_rate_points : ℚ
  completion_rate_tickets : ℚ
  velocity : ℚ
  work_in_progress_points : ℚ
  todo_points : ℚ
  bugs_count : ℕ
  critical_bugs : ℕ
  high_priority_incomplete : ℕ
  health_score : ℚ
deriving DecidableEq, Repr

/-- The body of `_calc_sprint_health`: the per-sprint record it builds. -/
def calc_sprint_health_record (t : Table) (sid : String) : SprintHealth :=
  let rows := sprint_rows t (some sid)
  let total_points := sumCol rows "Story_Points"
  let completed_points := sumCol (rows.filter isDone) "Story_Points"
  let in_progress_points := sumCol (rows.filter (fun r =>
    veq (getCell r "Status") (Value.str "In Progress"))) "Story_Points"
  let todo_points := sumCol (rows.filter (fun r =>
    veq (getCell r "Status") (Value.str "To Do"))) "Story_Points"
  let total_tickets := rows.length
  let completed_tickets := (rows.filter isDone).length
  { sprint_id := sid
    completion_rate_points :=
      if 0 < total_points then round2 (completed_points / total_points * 100) else 0
    completion_rate_tickets :=
      if 0 < total_tickets then round2 ((completed_tickets : ℚ) / total_tickets * 100) else 0
    velocity := completed_points
    work_in_progress_points := in_progress_points
    todo_points := todo_points
    bugs_count := (rows.filter (fun r => veq (getCell r "Type") (Value.str "Bug"))).length
    critical_bugs := (rows.filter (fun r =>
      veq (getCell r "Type") (Value.str "Bug") &&
      veq (getCell r "Priority") (Value.str "Critical"))).length
    high_priority_incomplete := (rows.filter (fun r =>
      veq (getCell r "Priority") (Value.str "High") &&
      !(veq (getCell r "Status") (Value.str "Done")))).length
    health_score := calculate_health_score rows }

/-- Columns `_calc_sprint_health` reads unconditionally; their absence is the
only way it raises (`KeyError` from pandas column access). -/
def sprintHealthRequiredCols : List String := ["Story_Points", "Status", "Type", "Priority"]

/-- `_calc_sprint_health`, with the pandas `KeyError` made explicit. -/
def calc_sprint_health (t : Table) (sid : String) : Except String SprintHealth :=
  if sprintHealthRequiredCols.all (fun c => t.cols.contains c) then
    Except.ok (calc_sprint_health_record t sid)
  else
    Except.error "KeyError"

/-- `_calc_capacity_utilization`, with the pandas `KeyError`/`TypeError` made
explicit: `None` when the capacity column is absent, the sprint has no rows,
or the first capacity cell is null or zero; `QA_Time_Hours` is read through
`df.get` (absent column tolerated as 0) but `Dev_Time_Hours` is indexed
directly, so its absence raises. -/
def calc_capacity_utilization (t : Table) (sid : String) : Except String (Option ℚ) :=
  let df := filter_data [("Sprint_ID", FilterCond.scalar (Value.str sid))] t
  if "Team_Capacity_Hours" ∈ df.cols then
    match df.rows with
    | [] => Except.ok none
    | r0 :: _ =>
        match getCell r0 "Team_Capacity_Hours" with
        | Value.null => Except.ok none
        | Value.num cap =>
            if cap = 0 then Except.ok none
            else if "Dev_Time_Hours" ∈ df.cols then
              let dev := sumCol df.rows "Dev_Time_Hours"
              let qa := if "QA_Time_Hours" ∈ df.cols then sumCol df.rows "QA_Time_Hours" else 0
              Except.ok (some (round2 ((dev + qa) / cap * 100)))
            else Except.error "KeyError: Dev_Time_Hours"
        | Value.str _ =>
            if "Dev_Time_Hours" ∈ df.cols then Except.error "TypeError"
            else Except.error "KeyError: Dev_Time_Hours"
  else Except.ok none

/-- The calculators `_calculate_metric` can dispatch to. -/
inductive MetricCalc where
  | completionRate | velocity | capacityUtilization | cycleTimeAvg
  | bugResolutionRate | teamProductivity | sprintHealth | workDistribution
  | qualityMetrics | burndownData
deriving DecidableEq, Repr

/-- The `metric_calculators` dict of `_calculate_metric`, in source order. -/
def metric_calculators : List (String × MetricCalc) :=
  [("completion_rate", MetricCalc.completionRate),
   ("velocity", MetricCalc.velocity),
   ("capacity_utilization", MetricCalc.capacityUtilization),
   ("cycle_time_avg", MetricCalc.cycleTimeAvg),
   ("bug_resolution_rate", MetricCalc.bugResolutionRate),
   ("team_productivity", MetricCalc.teamProductivity),
   ("sprint_health", MetricCalc.sprintHealth),
   ("work_distribution", MetricCalc.workDistribution),
   ("quality_metrics", MetricCalc.qualityMetrics),
   ("burndown_data", MetricCalc.burndownData)]

/-- `metric_calculators.get(metric_name)`. -/
def lookup_calculator (name : String) : Option MetricCalc :=
  List.lookup name metric_calculators

/-- Whether `_calculate_metric` raises `ValueError("Unknown metric: ...")`:
exactly when the dict lookup comes back empty (`if not calculator`). -/
def calculate_metric_rejects (name : String) : Bool :=
  (lookup_calculator name).isNone

/-! ### Aggregation engine: series statistics, group-by, pivot -/

/-- The non-null numeric entries of a series (pandas statistics skip `NaN`). -/
def nonNullNums (vs : List Value) : List ℚ :=
  vs.filterMap (fun v => match v with | Value.num q => some q | _ => none)

/-- The values of one column down a list of rows. -/
def colVals (rows : List Row) (c : String) : List Value :=
  rows.map (fun r => getCell r c)

/-- Insert into a sorted list (ascending). -/
def insertSorted (x : ℚ) : List ℚ → List ℚ
  | [] => [x]
  | y :: ys => if x ≤ y then x :: y :: ys else y :: insertSorted x ys

/-- Insertion sort, ascending. -/
def sortQ : List ℚ → List ℚ
  | [] => []
  | x :: xs => insertSorted x (sortQ xs)

/-- `series.sum()`: 0 on an empty or all-null series. -/
def seriesSum (vs : List Value) : ℚ := (nonNullNums vs).sum

/-- `series.count()`: the number of non-null entries. -/
def seriesCount (vs : List Value) : ℕ := (nonNullNums vs).length

/-- `series.mean()`: `NaN` (`none`) when no non-null entry exists. -/
def seriesMean (vs : List Value) : Option ℚ :=
  let xs := nonNullNums vs
  if xs.length = 0 then none else some (xs.sum / xs.length)

/-- `series.median()`: midpoint of the sorted non-null entries, `NaN` when
there are none. -/
def seriesMedian (vs : List Value) : Option ℚ :=
  let xs := sortQ (nonNullNums vs)
  let n := xs.length
  if n = 0 then none
  else if n % 2 = 1 then some (xs.getD (n / 2) 0)
  else some ((xs.getD (n / 2 - 1) 0 + xs.getD (n / 2) 0) / 2)

/-- `series.min()`: `NaN` when no non-null entry exists. -/
def seriesMin (vs : List Value) : Option ℚ := (sortQ (nonNullNums vs)).head?

/-- `series.max()`: `NaN` when no non-null entry exists. -/
def seriesMax (vs : List Value) : Option ℚ := (sortQ (nonNullNums vs)).getLast?

/-- The sample variance behind `series.std()` (`ddof = 1`): `NaN` when fewer
than two non-null entries exist. -/
def seriesVar (vs : List Value) : Option ℚ :=
  let xs := nonNullNums vs
  if xs.length < 2 then none
  else
    let m := xs.sum / xs.length
    some ((xs.map (fun x => (x - m) ^ 2)).sum / ((xs.length : ℚ) - 1))

/-- `series.std()` (`ddof = 1`): the square root of the sample variance,
`NaN` when fewer than two non-null entries exist. -/
noncomputable def seriesStd (vs : List Value) : Option ℝ :=
  (seriesVar vs).map (fun v => Real.sqrt ((v : ℚ) : ℝ))

/-- `series.quantile(p)` with the pandas default linear interpolation, `NaN` on
an empty series. -/
def seriesQuantile (vs : List Value) (p : ℚ) : Option ℚ :=
  let xs := sortQ (nonNullNums vs)
  if xs.length = 0 then none
  else
    let h : ℚ := ((xs.length : ℚ) - 1) * p
    let lower := xs.getD (Int.toNat ⌊h⌋) 0
    let upper := xs.getD (Int.toNat ⌈h⌉) 0
    some (lower + (h - ⌊h⌋) * (upper - lower))

/-- The `agg_map` of `_group_by_analysis` with its `.get(aggregation,
grouped.sum)` default: an unrecognised aggregation name reduces with `sum`.
Cells live in `Option ℝ` because `std` can be `NaN` (singleton group) and is
irrational in general. -/
noncomputable def agg_fun (fn : String) (vs : List Value) : Option ℝ :=
  if fn = "sum" then some ((seriesSum vs : ℚ) : ℝ)
  else if fn = "mean" then (seriesMean vs).map (fun q => ((q : ℚ) : ℝ))
  else if fn = "median" then (seriesMedian vs).map (fun q => ((q : ℚ) : ℝ))
  else if fn = "count" then some ((seriesCount vs : ℕ) : ℝ)
  else if fn = "min" then (seriesMin vs).map (fun q => ((q : ℚ) : ℝ))
  else if fn = "max" then (seriesMax vs).map (fun q => ((q : ℚ) : ℝ))
  else if fn = "std" then seriesStd vs
  else some ((seriesSum vs : ℚ) : ℝ)

/-- The group key of a row: its tuple of group-column values. -/
def keyOf (gcols : List String) (r : Row) : List Value :=
  gcols.map (fun c => getCell r c)

/-- The distinct group keys, rows with a null key component dropped
(pandas `groupby` drops `NaN` keys); modelled in first-occurrence order
where pandas sorts — none of the verified claims depends on row order of a
grouped result. -/
def groupKeys (rows : List Row) (gcols : List String) : List (List Value) :=
  ((rows.filter (fun r => !(keyOf gcols r).contains Value.null)).map
    (fun r => keyOf gcols r)).dedup

/-- `_group_by_analysis`: an absent `value_column` short-circuits to an empty
table; an absent group column makes pandas `groupby` raise `KeyError`;
otherwise one row per group key with the aggregated value. -/
noncomputable def group_by_analysis (t : Table) (group_columns : List String)
    (value_column : String) (aggregation : String) :
    Except String (List (List Value × Option ℝ)) :=
  if value_column ∈ t.cols then
    if group_columns.all (fun g => t.cols.contains g) then
      Except.ok ((groupKeys t.rows group_columns).map (fun k =>
        (k, agg_fun aggregation
          (colVals (t.rows.filter (fun r => decide (keyOf group_columns r = k)))
            value_column))))
    else Except.error "KeyError"
  else Except.ok []

/-- The distinct non-null values of a column, for the pivot grid axes. -/
def distinct_nonnull (rows : List Row) (c : String) : List Value :=
  ((rows.map (fun r => getCell r c)).filter (fun v => !(v == Value.null))).dedup

/-- The rows behind one pivot cell: those matching both the index value and
the column value. -/
def matching_rows (rows : List Row) (ixc cc : String) (i c : Value) : List Row :=
  rows.filter (fun r => decide (getCell r ixc = i) && decide (getCell r cc = c))

/-- One cell of `pd.pivot_table(..., fill_value=0)`: a (index, column)
combination with no matching rows — and any `NaN` an aggregation produces —
is filled with 0. -/
noncomputable def pivot_cell (rows : List Row) (ixc cc vc fn : String) (i c : Value) : ℝ :=
  let m := matching_rows rows ixc cc i c
  if m = [] then 0 else (agg_fun fn (colVals m vc)).getD 0

/-- The aggregation names `pd.pivot_table` accepts here; any other string
makes it raise, which `_pivot_analysis` catches. -/
def validPivotAggs : List String := ["sum", "mean", "median", "count", "min", "max", "std"]

/-- `_pivot_analysis`: the full grid (one row per distinct index value, one
cell per distinct column value), or an empty table when pandas raises
(missing column or unknown aggregation) and the `except` branch runs. -/
noncomputable def pivot_analysis (t : Table) (index columns values aggfunc : String) :
    List (Value × List (Value × ℝ)) :=
  if index ∈ t.cols ∧ columns ∈ t.cols ∧ values ∈ t.cols ∧ aggfunc ∈ validPivotAggs then
    (distinct_nonnull t.rows index).map (fun i =>
      (i, (distinct_nonnull t.rows columns).map (fun c =>
        (c, pivot_cell t.rows index columns values aggfunc i c))))
  else []

/-! ### Statistical summary -/

/-- Round half to even at two decimal places, on the reals (for the one
irrational statistic, `std`). -/
noncomputable def roundHalfEvenR (x : ℝ) : ℤ :=
  if Int.fract x < 1/2 then ⌊x⌋
  else if 1/2 < Int.fract x then ⌊x⌋ + 1
  else if ⌊x⌋ % 2 = 0 then ⌊x⌋ else ⌊x⌋ + 1

/-- `round(x, 2)` on the reals. -/
noncomputable def round2R (x : ℝ) : ℝ := (roundHalfEvenR (x * 100) : ℝ) / 100

/-- The entry of one column in the `_statistical_summary` mapping. -/
structure StatSummary where
  count : ℕ
  mean : ℚ
  median : ℚ
  std : ℝ
  min : ℚ
  max : ℚ
  q25 : ℚ
  q75 : ℚ

/-- `_statistical_summary` on one column: every statistic is rounded and
individually guarded — `round(float(s), 2) if not pd.isna(s) else 0`. -/
noncomputable def summary_col (vs : List Value) : StatSummary :=
  { count := seriesCount vs
    mean := ((seriesMean vs).map round2).getD 0
    median := ((seriesMedian vs).map round2).getD 0
    std := ((seriesStd vs).map round2R).getD 0
    min := ((seriesMin vs).map round2).getD 0
    max := ((seriesMax vs).map round2).getD 0
    q25 := ((seriesQuantile vs (1/4)).map round2).getD 0
    q75 := ((seriesQuantile vs (3/4)).map round2).getD 0 }

/-- `_statistical_summary` over the requested columns (the `columns`
parameter; when omitted the source takes every numeric column). -/
noncomputable def statistical_summary (t : Table) (columns : List String) :
    List (String × StatSummary) :=
  columns.map (fun c => (c, summary_col (colVals t.rows c)))

/-! ### The health-score rule as the specification states it -/

/-- The pre-clamp linear score of the specification, stated additively: 100
minus the four independent, non-negative deductions (low completion by
points, critical bugs, incomplete high-priority tickets, and a to-do overhang
applied only above 30%). -/
def health_score_linear (rows : List Row) : ℚ :=
  let total := sumCol rows "Story_Points"
  let completed := sumCol (rows.filter isDone) "Story_Points"
  let completion_rate_by_points := if 0 < total then completed / total * 100 else 0
  let completion_deduction := max 0 ((70 - completion_rate_by_points) * (1/2))
  let critical_bug_deduction : ℚ := ((rows.filter (fun r =>
    veq (getCell r "Type") (Value.str "Bug") &&
    veq (getCell r "Priority") (Value.str "Critical"))).length : ℚ) * 10
  let high_priority_deduction : ℚ := ((rows.filter (fun r =>
    veq (getCell r "Priority") (Value.str "High") &&
    !(veq (getCell r "Status") (Value.str "Done")))).length : ℚ) * 5
  let todo_ratio := if 0 < rows.length then
    (((rows.filter (fun r => veq (getCell r "Status") (Value.str "To Do"))).length : ℚ)
      / (rows.length : ℚ) * 100) else 0
  let todo_deduction := if 30 < todo_ratio then (todo_ratio - 30) * (1/2) else 0
  100 - completion_deduction - critical_bug_deduction
    - high_priority_deduction - todo_deduction

/-- The health-score rule exactly as the specification words it — the linear
score clamped to [0, 100], with no rounding step. -/
def health_score_spec (rows : List Row) : ℚ :=
  min 100 (max 0 (health_score_linear rows))

/-! ### Concrete fixtures -/

/-- A Done one-point Story ticket of sprint "S1". -/
def c1Row1 : Row :=
  [("Sprint_ID", Value.str "S1"), ("Status", Value.str "Done"),
   ("Type", Value.str "Story"), ("Priority", Value.str "Low"),
   ("Story_Points", Value.num 1)]

/-- An In-Progress one-point Story ticket of sprint "S1". -/
def c1Row2 : Row :=
  [("Sprint_ID", Value.str "S1"), ("Status", Value.str "In Progress"),
   ("Type", Value.str "Story"), ("Priority", Value.str "Low"),
   ("Story_Points", Value.num 1)]

/-- A second In-Progress one-point Story ticket of sprint "S1". -/
def c1Row3 : Row :=
  [("Sprint_ID", Value.str "S1"), ("Status", Value.str "In Progress"),
   ("Type", Value.str "Story"), ("Priority", Value.str "Low"),
   ("Story_Points", Value.num 1)]

/-- Three one-point tickets, one Done: the pre-clamp linear score is 245/3,
which two-decimal rounding cannot represent. -/
def c1CexTable : Table :=
  ⟨["Sprint_ID", "Status", "Type", "Priority", "Story_Points"],
   [c1Row1, c1Row2, c1Row3]⟩

/-- A one-sprint table with every column `_calc_sprint_health` reads. -/
def healthCexTable : Table :=
  ⟨["Sprint_ID", "Status", "Type", "Priority", "Story_Points"],
   [[("Sprint_ID", Value.str "SPR-001"), ("Status", Value.str "Done"),
     ("Type", Value.str "Story"), ("Priority", Value.str "Low"),
     ("Story_Points", Value.num 5)]]⟩

/-- The round-trip example of the specification: three tickets in "SPR-001" with
story points 5, 3, 2 and statuses Done, Done, To Do. -/
def crWitTable : Table :=
  ⟨["Sprint_ID", "Status", "Story_Points"],
   [[("Sprint_ID", Value.str "SPR-001"), ("Status", Value.str "Done"),
     ("Story_Points", Value.num 5)],
    [("Sprint_ID", Value.str "SPR-001"), ("Status", Value.str "Done"),
     ("Story_Points", Value.num 3)],
    [("Sprint_ID", Value.str "SPR-001"), ("Status", Value.str "To Do"),
     ("Story_Points", Value.num 2)]]⟩

/-- An empty sprint table for the velocity counterexample. -/
def velCexTable : Table := ⟨["Sprint_ID", "Status", "Story_Points"], []⟩

/-- A Done ticket worth a thousandth of a story point. -/
def velCexRow : Row :=
  [("Sprint_ID", Value.str "S1"), ("Status", Value.str "Done"),
   ("Story_Points", Value.num (1/1000))]

/-- A one-ticket sprint table for the velocity witness. -/
def velWitTable : Table :=
  ⟨["Sprint_ID", "Status", "Story_Points"],
   [[("Sprint_ID", Value.str "S1"), ("Status", Value.str "Done"),
     ("Story_Points", Value.num 2)]]⟩

/-- A Done ticket worth five story points. -/
def velWitRowDone : Row :=
  [("Sprint_ID", Value.str "S1"), ("Status", Value.str "Done"),
   ("Story_Points", Value.num 5)]

/-- A not-started ticket worth five story points. -/
def velWitRowTodo : Row :=
  [("Sprint_ID", Value.str "S1"), ("Status", Value.str "To Do"),
   ("Story_Points", Value.num 5)]

/-- A sprint table carrying capacity and QA hours but no `Dev_Time_Hours`
column. -/
def capBugTable : Table :=
  ⟨["Sprint_ID", "Team_Capacity_Hours", "QA_Time_Hours"],
   [[("Sprint_ID", Value.str "SPR-001"), ("Team_Capacity_Hours", Value.num 100),
     ("QA_Time_Hours", Value.num 10)]]⟩

/-- A two-row table whose index/column combinations (A, Y) and (B, X) have no
matching rows. -/
def pivotWitTable : Table :=
  ⟨["I", "C", "V"],
   [[("I", Value.str "A"), ("C", Value.str "X"), ("V", Value.num 1)],
    [("I", Value.str "B"), ("C", Value.str "Y"), ("V", Value.num 2)]]⟩

/-- The pivot row for index value "A" in `pivotWitTable`. -/
noncomputable def pivotWitRowA : Value × List (Value × ℝ) :=
  (Value.str "A",
   [(Value.str "X", pivot_cell pivotWitTable.rows "I" "C" "V" "sum" (Value.str "A") (Value.str "X")),
    (Value.str "Y", pivot_cell pivotWitTable.rows "I" "C" "V" "sum" (Value.str "A") (Value.str "Y"))])

/-- The (A, Y) pivot cell of `pivotWitTable`. -/
noncomputable def pivotWitCellAY : Value × ℝ :=
  (Value.str "Y", pivot_cell pivotWitTable.rows "I" "C" "V" "sum" (Value.str "A") (Value.str "Y"))

/-- One row carrying a single numeric value in column "N"; column "M" is
declared but has no cells, so every statistic of "M" is `NaN` before the
guards. -/
def statWitTable : Table := ⟨["N", "M"], [[("N", Value.num 7)]]⟩

/-- A one-group table for the group-by witness. -/
def groupWitTable : Table := ⟨["G", "V"], [[("G", Value.str "a"), ("V", Value.num 1)]]⟩

/-! ### Helper lemmas -/

theorem filter_data_spec (conds : List (String × FilterCond)) (t : Table) :
    filter_data conds t = ⟨t.cols, t.rows.filter (condsHold t.cols conds)⟩ := by
  induction conds generalizing t with
  | nil =>
      rw [show condsHold t.cols [] = (fun _ : Row => true) from rfl]
      rw [List.filter_true]
      rfl
  | cons hd tl ih =>
      obtain ⟨c, cond⟩ := hd
      by_cases hc : c ∈ t.cols
      · simp only [filter_data, if_pos hc]
        rw [ih ⟨t.cols, t.rows.filter (rowSat c cond)⟩]
        simp only [List.filter_filter]
        refine congrArg (fun rs => Table.mk t.cols rs) ?_
        apply List.filter_congr
        intro a _
        simp [condsHold, hc, Bool.and_comm]
      · simp only [filter_data, if_neg hc]
        rw [ih t]
        refine congrArg (fun rs => Table.mk t.cols rs) ?_
        apply List.filter_congr
        intro a _
        simp [condsHold, hc]

/-- Rows of a filtered table come from the original table. -/
theorem mem_filter_data (conds : List (String × FilterCond)) (t : Table) (r : Row)
    (h : r ∈ (filter_data conds t).rows) : r ∈ t.rows := by
  rw [filter_data_spec] at h
  exact List.mem_of_mem_filter h

theorem ratFloor_eq_intFloor (q : ℚ) : q.floor = ⌊q⌋ := by
  rw [Rat.floor_def, Rat.floor_def']

theorem roundHalfEven_le (x : ℚ) : (roundHalfEven x : ℚ) ≤ x + 1/2 := by
  have hb : x.floor = ⌊x⌋ := ratFloor_eq_intFloor x
  have h0 : (x.floor : ℚ) ≤ x := by rw [hb]; exact Int.floor_le x
  have h1 : x < (x.floor : ℚ) + 1 := by
    rw [hb]
    exact_mod_cast Int.lt_floor_add_one x
  unfold roundHalfEven
  split_ifs with ha hc hd
  · linarith
  · push_cast; linarith
  · linarith
  · have hc' := le_of_not_lt hc
    push_cast
    linarith

theorem roundHalfEven_ge (x : ℚ) : x - 1/2 ≤ (roundHalfEven x : ℚ) := by
  have hb : x.floor = ⌊x⌋ := ratFloor_eq_intFloor x
  have h0 : (x.floor : ℚ) ≤ x := by rw [hb]; exact Int.floor_le x
  have h1 : x < (x.floor : ℚ) + 1 := by
    rw [hb]
    exact_mod_cast Int.lt_floor_add_one x
  unfold roundHalfEven
  split_ifs with ha hc hd
  · linarith
  · push_cast; linarith
  · have ha' := le_of_not_lt ha
    linarith
  · push_cast; linarith

theorem round2_nonneg (x : ℚ) (hx : 0 ≤ x) : 0 ≤ round2 x := by
  unfold round2
  have h := roundHalfEven_ge (x * 100)
  have : (0 : ℚ) ≤ (roundHalfEven (x * 100) : ℚ) := by
    have hcast : ((-1 : ℤ) : ℚ) < (roundHalfEven (x * 100) : ℚ) := by push_cast; linarith
    have hint : (-1 : ℤ) < roundHalfEven (x * 100) := by exact_mod_cast hcast
    have hge : (0 : ℤ) ≤ roundHalfEven (x * 100) := by omega
    exact_mod_cast hge
  positivity

theorem round2_le_hundred (x : ℚ) (hx : x ≤ 100) : round2 x ≤ 100 := by
  unfold round2
  have h := roundHalfEven_le (x * 100)
  have hlt : (roundHalfEven (x * 100) : ℚ) < 10001 := by linarith
  have hle : roundHalfEven (x * 100) ≤ 10000 := by
    have : roundHalfEven (x * 100) < 10001 := by exact_mod_cast hlt
    omega
  have : (roundHalfEven (x * 100) : ℚ) ≤ 10000 := by exact_mod_cast hle
  linarith

/-- Adding strictly more than one hundredth strictly increases the rounded
value: the two-decimal rounding cannot swallow a change of more than one
reporting unit. -/
theorem round2_lt_add (x p : ℚ) (hp : 1/100 < p) : round2 x < round2 (x + p) := by
  unfold round2
  have h1 := roundHalfEven_le (x * 100)
  have h2 := roundHalfEven_ge ((x + p) * 100)
  have : (roundHalfEven (x * 100) : ℚ) < (roundHalfEven ((x + p) * 100) : ℚ) := by
    nlinarith
  linarith

theorem round2_mono (x y : ℚ) (h : x ≤ y) : round2 x ≤ round2 y := by
  unfold round2 roundHalfEven
  have hbx : (x * 100).floor = ⌊x * 100⌋ := ratFloor_eq_intFloor _
  have hby : (y * 100).floor = ⌊y * 100⌋ := ratFloor_eq_intFloor _
  have h0x : ((x * 100).floor : ℚ) ≤ x * 100 := by rw [hbx]; exact Int.floor_le _
  have h1x : x * 100 < ((x * 100).floor : ℚ) + 1 := by
    rw [hbx]; exact Int.lt_floor_add_one (x * 100)
  have h0y : ((y * 100).floor : ℚ) ≤ y * 100 := by rw [hby]; exact Int.floor_le _
  have h1y : y * 100 < ((y * 100).floor : ℚ) + 1 := by
    rw [hby]; exact Int.lt_floor_add_one (y * 100)
  have hfl : (x * 100).floor ≤ (y * 100).floor := by
    rw [hbx, hby]; exact Int.floor_le_floor (by linarith)
  have key : ∀ a b : ℤ, a ≤ b → (a : ℚ) / 100 ≤ (b : ℚ) / 100 := by
    intro a b hab
    have : (a : ℚ) ≤ (b : ℚ) := by exact_mod_cast hab
    linarith
  rcases lt_or_eq_of_le hfl with hlt | heq
  · -- different floors: everything on the left is ≤ ⌊x⌋+1 ≤ ⌊y⌋ ≤ rhs
    split_ifs <;> apply key <;> omega
  · -- same floor, so the fractional parts are ordered
    have hfr : x * 100 - ((x * 100).floor : ℚ) ≤ y * 100 - ((y * 100).floor : ℚ) := by
      rw [heq]
      linarith
    rw [heq]
    split_ifs <;> first | (apply key; omega) | (exfalso; linarith)

theorem sumCol_nil (c : String) : sumCol [] c = 0 := rfl

theorem sumCol_append (rows₁ rows₂ : List Row) (c : String) :
    sumCol (rows₁ ++ rows₂) c = sumCol rows₁ c + sumCol rows₂ c := by
  simp [sumCol]

theorem sumCol_nonneg (rows : List Row) (c : String)
    (h : ∀ r ∈ rows, 0 ≤ numOrZero (getCell r c)) : 0 ≤ sumCol rows c := by
  induction rows with
  | nil => simp [sumCol]
  | cons r rs ih =>
      have hr := h r (List.mem_cons_self r rs)
      have hrs := ih (fun r' hr' => h r' (List.mem_cons_of_mem r hr'))
      simp only [sumCol, List.map_cons, List.sum_cons]
      have : sumCol rs c = (rs.map (fun r => numOrZero (getCell r c))).sum := rfl
      linarith [this ▸ hrs]

theorem sumCol_filter_le (rows : List Row) (p : Row → Bool) (c : String)
    (h : ∀ r ∈ rows, 0 ≤ numOrZero (getCell r c)) :
    sumCol (rows.filter p) c ≤ sumCol rows c := by
  induction rows with
  | nil => simp [sumCol]
  | cons r rs ih =>
      have hr := h r (List.mem_cons_self r rs)
      have hrs := ih (fun r' hr' => h r' (List.mem_cons_of_mem r hr'))
      by_cases hp : p r
      · simp only [List.filter_cons, hp, if_pos, sumCol, List.map_cons, List.sum_cons]
        have e1 : sumCol (rs.filter p) c ≤ sumCol rs c := hrs
        simp only [sumCol] at e1
        linarith
      · simp only [List.filter_cons, hp]
        simp only [Bool.false_eq_true, if_false, sumCol, List.map_cons, List.sum_cons]
        have e1 : sumCol (rs.filter p) c ≤ sumCol rs c := hrs
        simp only [sumCol] at e1
        linarith



/-- `round2` of anything in `[0, 0.005)` is 0. -/
theorem round2_small (x : ℚ) (h1 : 0 ≤ x * 100) (h2 : x * 100 < 1/2) : round2 x = 0 := by
  unfold round2 roundHalfEven
  rw [ratFloor_eq_intFloor]
  have hfl : ⌊x * 100⌋ = 0 := by
    rw [Int.floor_eq_zero_iff]
    exact ⟨h1, by linarith⟩
  rw [hfl]
  rw [if_pos (by push_cast; linarith)]
  norm_num

/-- `round2` is the identity on whole hundredths. -/
theorem round2_eq_intCast (x : ℚ) (n : ℤ) (h : x * 100 = (n : ℚ)) :
    round2 x = (n : ℚ) / 100 := by
  unfold round2 roundHalfEven
  rw [ratFloor_eq_intFloor, h]
  rw [Int.floor_intCast]
  rw [if_pos (by norm_num)]

theorem round2_zero : round2 0 = 0 :=
  (round2_small 0 (by norm_num) (by norm_num))

theorem round2_sixtyfive : round2 65 = 65 := by
  rw [round2_eq_intCast 65 6500 (by norm_num)]
  norm_num

theorem clamp_comm (x : ℚ) : max 0 (min 100 x) = min 100 (max 0 x) := by
  rw [max_min_distrib_left]
  norm_num

theorem veq_str_right (v : Value) (s : String) :
    veq v (Value.str s) = true ↔ v = Value.str s := by
  cases v <;> simp [veq]

/-- `round2` rounds up to the next hundredth when the scaled value sits
strictly between a half and the next integer. -/
theorem round2_eval_up (x : ℚ) (n : ℤ) (h1 : (n : ℚ) + 1/2 < x * 100)
    (h2 : x * 100 < (n : ℚ) + 1) : round2 x = ((n : ℚ) + 1) / 100 := by
  unfold round2 roundHalfEven
  rw [ratFloor_eq_intFloor]
  have hfl : ⌊x * 100⌋ = n := by
    rw [Int.floor_eq_iff]
    exact ⟨by linarith, h2⟩
  rw [hfl]
  rw [if_neg (by linarith), if_pos (by linarith)]
  push_cast
  ring

/-- The sequentially-subtracting code formula equals the additive linear
rule with its pre-clamp score rounded to two decimals, clamped. -/
theorem calculate_health_score_eq_rounded (rows : List Row) :
    calculate_health_score rows
      = min 100 (max 0 (round2 (health_score_linear rows))) := by
  simp only [calculate_health_score, health_score_linear]
  rw [clamp_comm]
  congr 1
  congr 1
  congr 1
  split_ifs with h1 h2 <;> ring

/-- The health score of a sprint with no rows is 65. -/
theorem calculate_health_score_nil : calculate_health_score [] = 65 := by
  simp only [calculate_health_score, List.filter_nil, List.length_nil, sumCol_nil,
    lt_irrefl, if_false]
  norm_num
  rw [round2_sixtyfive, min_eq_right (by norm_num : (65:ℚ) ≤ 100),
    max_eq_right (by norm_num : (0:ℚ) ≤ 65)]

/-- An empty sprint partition makes `_calc_sprint_health` return the zeroed
record with health score 65 (shared by the C2 theorems). -/
theorem calc_sprint_health_empty (t : Table) (sid : String)
    (hcols : sprintHealthRequiredCols.all (fun c => t.cols.contains c) = true)
    (hempty : sprint_rows t (some sid) = []) :
    calc_sprint_health t sid = Except.ok ⟨sid, 0, 0, 0, 0, 0, 0, 0, 0, 65⟩ := by
  unfold calc_sprint_health
  rw [if_pos hcols]
  unfold calc_sprint_health_record
  rw [hempty]
  simp [calculate_health_score_nil, sumCol_nil]

/-- `List.lookup` misses exactly when the key is absent. -/
theorem lookup_eq_none_iff {β : Type} (a : String) (l : List (String × β)) :
    List.lookup a l = none ↔ a ∉ l.map Prod.fst := by
  induction l with
  | nil => simp [List.lookup]
  | cons hd tl ih =>
      obtain ⟨k, v⟩ := hd
      by_cases h : a = k
      · subst h
        simp [List.lookup]
      · have hbeq : (a == k) = false := beq_eq_false_iff_ne.mpr h
        simp [List.lookup, hbeq, ih, h]

/-! ### Claim theorems -/

/-- The linear score of the three-ticket counterexample sprint is 245/3. -/
theorem health_score_linear_c1Cex :
    health_score_linear [c1Row1, c1Row2, c1Row3] = 245/3 := by
  have h1 : List.filter isDone [c1Row1, c1Row2, c1Row3] = [c1Row1] := rfl
  have h2 : List.filter (fun r =>
      veq (getCell r "Type") (Value.str "Bug") &&
      veq (getCell r "Priority") (Value.str "Critical"))
        [c1Row1, c1Row2, c1Row3] = [] := rfl
  have h3 : List.filter (fun r =>
      veq (getCell r "Priority") (Value.str "High") &&
      !(veq (getCell r "Status") (Value.str "Done")))
        [c1Row1, c1Row2, c1Row3] = [] := rfl
  have h4 : List.filter (fun r =>
      veq (getCell r "Status") (Value.str "To Do"))
        [c1Row1, c1Row2, c1Row3] = [] := rfl
  have h5 : sumCol [c1Row1, c1Row2, c1Row3] "Story_Points" = 1 + (1 + (1 + 0)) := rfl
  have h6 : sumCol [c1Row1] "Story_Points" = 1 + 0 := rfl
  simp only [health_score_linear, h1, h2, h3, h4, h5, h6, List.length_cons,
    List.length_nil]
  norm_num

/-- Claim C1 counterexample: on the sprint of three one-point tickets with
exactly one Done, the fixed linear rule (clamped, no rounding) gives 245/3,
but the metric reports the two-decimal 8167/100 = 81.67, so the claimed
exact equality fails. -/
theorem sprint_health_score_rule_counterexample :
    (calc_sprint_health_record c1CexTable "S1").health_score = 8167/100 ∧
    health_score_spec (sprint_rows c1CexTable (some "S1")) = 245/3 ∧
    (8167/100 : ℚ) ≠ 245/3 := by
  have hr : sprint_rows c1CexTable (some "S1") = [c1Row1, c1Row2, c1Row3] := rfl
  have hrec : (calc_sprint_health_record c1CexTable "S1").health_score
      = calculate_health_score (sprint_rows c1CexTable (some "S1")) := rfl
  refine ⟨?_, ?_, by norm_num⟩
  · rw [hrec, calculate_health_score_eq_rounded, hr, health_score_linear_c1Cex]
    rw [round2_eval_up (245/3) 8166 (by norm_num) (by norm_num)]
    rw [show (((8166 : ℤ) : ℚ) + 1) / 100 = 8167/100 by norm_num]
    rw [max_eq_right (by norm_num), min_eq_right (by norm_num)]
  · rw [hr]
    unfold health_score_spec
    rw [health_score_linear_c1Cex]
    rw [max_eq_right (by norm_num), min_eq_right (by norm_num)]

/-- Claim C1 (amended): for every sprint table, the sprint_health metric's
health_score equals the fixed linear rule — start at 100, subtract
`max(0, (70 − completion_rate_by_points) * 0.5)`, 10 per Critical-priority
Bug, 5 per High-priority ticket not Done, and `(todo_ratio − 30) * 0.5` only
when the To-Do percentage exceeds 30 — with the resulting score rounded to
two decimal places and then clamped to [0, 100]; the result lies in
[0, 100] for all inputs. -/
theorem sprint_health_score_rounded_rule (t : Table) (sid : String) :
    (calc_sprint_health_record t sid).health_score
      = min 100 (max 0 (round2 (health_score_linear (sprint_rows t (some sid))))) ∧
    0 ≤ (calc_sprint_health_record t sid).health_score ∧
    (calc_sprint_health_record t sid).health_score ≤ 100 := by
  have hh : (calc_sprint_health_record t sid).health_score
      = calculate_health_score (sprint_rows t (some sid)) := rfl
  refine ⟨hh.trans (calculate_health_score_eq_rounded _), ?_, ?_⟩
  · rw [hh]
    simp only [calculate_health_score]
    exact le_max_left 0 _
  · rw [hh]
    simp only [calculate_health_score]
    exact max_le (by norm_num) (min_le_left 100 _)

/-- Claim C2 counterexample: sprint "SPR-404" matches no row of the table,
yet `_calc_sprint_health` returns a result record (all counts zero, health
score 65) instead of erroring. -/
theorem sprint_health_empty_counterexample :
    sprint_rows healthCexTable (some "SPR-404") = [] ∧
    calc_sprint_health healthCexTable "SPR-404" =
      Except.ok ⟨"SPR-404", 0, 0, 0, 0, 0, 0, 0, 0, 65⟩ :=
  ⟨by decide, calc_sprint_health_empty healthCexTable "SPR-404" (by decide) (by decide)⟩

/-- Claim C2 (amended): on a table carrying the four columns the metric
reads, a sprint_id matching no rows does not error: `_calc_sprint_health`
returns a zeroed result record whose health score is 65. -/
theorem sprint_health_empty_returns_record (t : Table) (sid : String)
    (hcols : sprintHealthRequiredCols.all (fun c => t.cols.contains c) = true)
    (hempty : sprint_rows t (some sid) = []) :
    calc_sprint_health t sid = Except.ok ⟨sid, 0, 0, 0, 0, 0, 0, 0, 0, 65⟩ :=
  calc_sprint_health_empty t sid hcols hempty

/-- Claim C2 witness: the amended theorem instantiated at the concrete table
and the missing sprint "SPR-999". -/
theorem sprint_health_empty_returns_record_witness :
    calc_sprint_health healthCexTable "SPR-999" =
      Except.ok ⟨"SPR-999", 0, 0, 0, 0, 0, 0, 0, 0, 65⟩ :=
  sprint_health_empty_returns_record healthCexTable "SPR-999" (by decide) (by decide)

/-- Claim C3: `calculate_metric` rejects a metric name (raises
`ValueError("Unknown metric: ...")`) exactly when the name is outside the
ten-metric catalogue; every name in the catalogue dispatches to a
calculator. -/
theorem unknown_metric_rejected (name : String) :
    calculate_metric_rejects name = true ↔
      name ∉ ["completion_rate", "velocity", "capacity_utilization",
              "cycle_time_avg", "bug_resolution_rate", "team_productivity",
              "sprint_health", "work_distribution", "quality_metrics",
              "burndown_data"] := by
  unfold calculate_metric_rejects lookup_calculator
  rw [Option.isNone_iff_eq_none, lookup_eq_none_iff]
  simp [metric_calculators]

/-- Shared bound for completed/total*100-style rates. -/
theorem rate_bounds (c t : ℚ) (hc : 0 ≤ c) (hct : c ≤ t) :
    0 ≤ round2 (if 0 < t then c / t * 100 else 0) ∧
    round2 (if 0 < t then c / t * 100 else 0) ≤ 100 := by
  split_ifs with h
  · have h1 : 0 ≤ c / t * 100 := by positivity
    have h2 : c / t * 100 ≤ 100 := by
      have hd : c / t ≤ 1 := (div_le_one h).mpr hct
      linarith
    exact ⟨round2_nonneg _ h1, round2_le_hundred _ h2⟩
  · rw [round2_zero]
    norm_num

/-- Claim C4: completion_rate always lies in [0, 100] (story points
non-negative where present), and an empty partition or a zero point total
yields exactly 0 — never an undefined value or a division error. -/
theorem completion_rate_bounded (t : Table) (sid : Option String) (mode : String)
    (hpts : ∀ r ∈ t.rows, 0 ≤ numOrZero (getCell r "Story_Points")) :
    (0 ≤ calc_completion_rate t sid mode ∧ calc_completion_rate t sid mode ≤ 100) ∧
    (sprint_rows t sid = [] → calc_completion_rate t sid mode = 0) ∧
    (mode ≠ "tickets" → sumCol (sprint_rows t sid) "Story_Points" = 0 →
      calc_completion_rate t sid mode = 0) := by
  have hsub : ∀ r ∈ sprint_rows t sid, r ∈ t.rows := by
    intro r hr
    cases sid with
    | none => exact hr
    | some s => exact mem_filter_data _ _ _ hr
  have hnn : ∀ r ∈ sprint_rows t sid, 0 ≤ numOrZero (getCell r "Story_Points") :=
    fun r hr => hpts r (hsub r hr)
  by_cases hmode : mode = "tickets"
  · have he : calc_completion_rate t sid mode =
        round2 (if 0 < ((sprint_rows t sid).length : ℚ) then
          (((sprint_rows t sid).filter isDone).length : ℚ)
            / ((sprint_rows t sid).length : ℚ) * 100
        else 0) := by
      simp [calc_completion_rate, hmode]
    refine ⟨?_, ?_, ?_⟩
    · rw [he]
      exact rate_bounds _ _ (by positivity)
        (by exact_mod_cast List.length_filter_le _ _)
    · intro hE
      rw [he, hE]
      simp [round2_zero]
    · intro hm
      exact absurd hmode hm
  · have he : calc_completion_rate t sid mode =
        round2 (if 0 < sumCol (sprint_rows t sid) "Story_Points" then
          sumCol ((sprint_rows t sid).filter isDone) "Story_Points"
            / sumCol (sprint_rows t sid) "Story_Points" * 100
        else 0) := by
      simp [calc_completion_rate, hmode]
    have hc0 : 0 ≤ sumCol ((sprint_rows t sid).filter isDone) "Story_Points" :=
      sumCol_nonneg _ _ (fun r hr => hnn r (List.mem_of_mem_filter hr))
    have hct : sumCol ((sprint_rows t sid).filter isDone) "Story_Points"
        ≤ sumCol (sprint_rows t sid) "Story_Points" := sumCol_filter_le _ _ _ hnn
    refine ⟨?_, ?_, ?_⟩
    · rw [he]
      exact rate_bounds _ _ hc0 hct
    · intro hE
      rw [he, hE]
      simp [sumCol_nil, round2_zero]
    · intro _ h0
      rw [he, h0]
      simp [round2_zero]

/-- Claim C4 witness: the round-trip example of the specification, three tickets
with points 5, 3, 2 and statuses Done, Done, To Do. -/
theorem completion_rate_bounded_witness :
    (0 ≤ calc_completion_rate crWitTable (some "SPR-001") "points" ∧
      calc_completion_rate crWitTable (some "SPR-001") "points" ≤ 100) ∧
    (sprint_rows crWitTable (some "SPR-001") = [] →
      calc_completion_rate crWitTable (some "SPR-001") "points" = 0) ∧
    ("points" ≠ "tickets" →
      sumCol (sprint_rows crWitTable (some "SPR-001")) "Story_Points" = 0 →
      calc_completion_rate crWitTable (some "SPR-001") "points" = 0) :=
  completion_rate_bounded crWitTable (some "SPR-001") "points" (by decide)

/-- Claim C5 (code bug): with capacity present and non-zero but the
`Dev_Time_Hours` column absent, `_calc_capacity_utilization` raises
`KeyError` (the direct `df["Dev_Time_Hours"]` index) instead of returning
the unavailable sentinel the specification requires; the guarded
`df.get("QA_Time_Hours", ...)` shows the intended tolerance. -/
theorem capacity_missing_dev_column_raises :
    calc_capacity_utilization capBugTable "SPR-001"
      = Except.error "KeyError: Dev_Time_Hours" := rfl

/-- Claim C6: every cell of a pivot result whose (index value, column value)
combination matches no rows holds exactly 0, never null. -/
theorem pivot_zero_fill (t : Table) (ix cs vs fn : String)
    (pr : Value × List (Value × ℝ)) (cell : Value × ℝ)
    (hpr : pr ∈ pivot_analysis t ix cs vs fn)
    (hcell : cell ∈ pr.2)
    (hmatch : matching_rows t.rows ix cs pr.1 cell.1 = []) :
    cell.2 = 0 := by
  unfold pivot_analysis at hpr
  split_ifs at hpr with hvalid
  · rw [List.mem_map] at hpr
    obtain ⟨i, hi, hpri⟩ := hpr
    subst hpri
    rw [List.mem_map] at hcell
    obtain ⟨c, hc, hcellc⟩ := hcell
    subst hcellc
    simp only [pivot_cell] at *
    rw [hmatch]
    simp
  · simp at hpr

/-- Claim C6 witness: in the two-row table the (A, Y) combination has no
rows, and its pivot cell is 0. -/
theorem pivot_zero_fill_witness : pivotWitCellAY.2 = 0 := by
  refine pivot_zero_fill pivotWitTable "I" "C" "V" "sum" pivotWitRowA pivotWitCellAY
    ?_ ?_ ?_
  · unfold pivot_analysis
    rw [if_pos (by decide)]
    have hdi : distinct_nonnull pivotWitTable.rows "I"
        = [Value.str "A", Value.str "B"] := by decide
    have hdc : distinct_nonnull pivotWitTable.rows "C"
        = [Value.str "X", Value.str "Y"] := by decide
    rw [hdi]
    simp only [hdc, List.map_cons, List.map_nil]
    exact List.mem_cons_self _ _
  · exact List.mem_cons_of_mem _ (List.mem_cons_self _ _)
  · decide

/-- Claim C7 counterexample: appending a Done ticket with positive story
points 1/1000 leaves the reported (2-decimal-rounded) velocity unchanged, so
the strict increase claimed for every positive value fails. -/
theorem velocity_strict_counterexample :
    getCell velCexRow "Status" = Value.str "Done" ∧
    getCell velCexRow "Story_Points" = Value.num (1/1000) ∧
    (0 : ℚ) < 1/1000 ∧
    calc_velocity ⟨velCexTable.cols, velCexTable.rows ++ [velCexRow]⟩ (some "S1")
      = calc_velocity velCexTable (some "S1") := by
  refine ⟨rfl, rfl, by norm_num, ?_⟩
  have h1 : sprint_rows velCexTable (some "S1") = [] := rfl
  have h2 : sprint_rows ⟨velCexTable.cols, velCexTable.rows ++ [velCexRow]⟩ (some "S1")
      = [velCexRow] := rfl
  unfold calc_velocity
  rw [h1, h2]
  have h3 : [velCexRow].filter isDone = [velCexRow] := rfl
  rw [h3]
  have h4 : sumCol [velCexRow] "Story_Points" = 1/1000 + 0 := rfl
  have h5 : sumCol (List.filter isDone ([] : List Row)) "Story_Points" = 0 := rfl
  rw [h4, h5]
  rw [show (1/1000 + 0 : ℚ) = 1/1000 by norm_num]
  rw [round2_small (1/1000) (by norm_num) (by norm_num), round2_zero]

/-- Claim C7 (amended): appending a Done ticket of the sprint with story
points strictly above 0.01 — one reporting unit of the 2-decimal rounding —
strictly increases the velocity of the sprint; appending a non-Done ticket leaves
velocity unchanged. -/
theorem velocity_monotone (t : Table) (sid : String) (r : Row) (p : ℚ)
    (hsid : getCell r "Sprint_ID" = Value.str sid) :
    (getCell r "Status" = Value.str "Done" →
      getCell r "Story_Points" = Value.num p → 1/100 < p →
      calc_velocity t (some sid) < calc_velocity ⟨t.cols, t.rows ++ [r]⟩ (some sid)) ∧
    (getCell r "Status" ≠ Value.str "Done" →
      calc_velocity ⟨t.cols, t.rows ++ [r]⟩ (some sid) = calc_velocity t (some sid)) := by
  have hpass : condsHold t.cols [("Sprint_ID", FilterCond.scalar (Value.str sid))] r
      = true := by
    simp [condsHold, rowSat, hsid, veq]
  have hrows : sprint_rows ⟨t.cols, t.rows ++ [r]⟩ (some sid)
      = sprint_rows t (some sid) ++ [r] := by
    show (filter_data [("Sprint_ID", FilterCond.scalar (Value.str sid))]
        ⟨t.cols, t.rows ++ [r]⟩).rows
      = (filter_data [("Sprint_ID", FilterCond.scalar (Value.str sid))] t).rows ++ [r]
    rw [filter_data_spec, filter_data_spec]
    simp only [List.filter_append]
    congr 1
    simp [List.filter_cons, hpass]
  constructor
  · intro hdone hpts hp
    have hd : isDone r = true := by simp [isDone, hdone, veq]
    have hsum : sumCol ((sprint_rows ⟨t.cols, t.rows ++ [r]⟩ (some sid)).filter isDone)
          "Story_Points"
        = sumCol ((sprint_rows t (some sid)).filter isDone) "Story_Points" + p := by
      rw [hrows, List.filter_append, sumCol_append]
      congr 1
      simp [List.filter_cons, hd, sumCol, hpts, numOrZero]
    unfold calc_velocity
    rw [hsum]
    exact round2_lt_add _ p hp
  · intro hnd
    have hd : isDone r = false := by
      rw [isDone]
      cases hveq : veq (getCell r "Status") (Value.str "Done")
      · rfl
      · exact absurd ((veq_str_right _ _).mp hveq) hnd
    unfold calc_velocity
    rw [hrows, List.filter_append]
    simp [List.filter_cons, hd]

/-- Claim C7 witness: a five-point Done ticket strictly increases velocity
of the one-ticket sprint; a five-point To-Do ticket leaves it unchanged. -/
theorem velocity_monotone_witness :
    (calc_velocity velWitTable (some "S1") <
      calc_velocity ⟨velWitTable.cols, velWitTable.rows ++ [velWitRowDone]⟩ (some "S1")) ∧
    (calc_velocity ⟨velWitTable.cols, velWitTable.rows ++ [velWitRowTodo]⟩ (some "S1")
      = calc_velocity velWitTable (some "S1")) :=
  ⟨(velocity_monotone velWitTable "S1" velWitRowDone 5 rfl).1 rfl rfl (by norm_num),
   (velocity_monotone velWitTable "S1" velWitRowTodo 5 rfl).2 (by decide)⟩

/-- Claim C8: `_filter_data` ignores predicates on unknown columns as a
no-op and returns exactly the rows satisfying all remaining predicates, in
the original row order, with all original columns. -/
theorem filter_semantics (conds : List (String × FilterCond)) (t : Table) :
    filter_data conds t = ⟨t.cols, t.rows.filter (condsHold t.cols conds)⟩ :=
  filter_data_spec conds t

/-- Claim C9: every statistic of `_statistical_summary` is individually
guarded: a column with exactly one non-null value reports std 0 (not NaN),
and a column with no non-null values reports 0 for every NaN-producing
statistic. -/
theorem statistical_summary_guarded (t : Table) (columns : List String)
    (c : String) (s : StatSummary)
    (hmem : (c, s) ∈ statistical_summary t columns) :
    (seriesCount (colVals t.rows c) = 1 → s.std = 0) ∧
    (seriesCount (colVals t.rows c) = 0 →
      s.mean = 0 ∧ s.median = 0 ∧ s.std = 0 ∧ s.min = 0 ∧ s.max = 0 ∧
      s.q25 = 0 ∧ s.q75 = 0) := by
  unfold statistical_summary at hmem
  rw [List.mem_map] at hmem
  obtain ⟨c', hc', heq⟩ := hmem
  have h1 : c' = c := congrArg Prod.fst heq
  have h2 : summary_col (colVals t.rows c') = s := congrArg Prod.snd heq
  subst h1
  subst h2
  constructor
  · intro hone
    have hlen : (nonNullNums (colVals t.rows c')).length = 1 := hone
    simp [summary_col, seriesStd, seriesVar, hlen]
  · intro hzero
    have hnil : nonNullNums (colVals t.rows c') = [] := List.length_eq_zero.mp hzero
    simp [summary_col, seriesMean, seriesMedian, seriesStd, seriesVar, seriesMin,
      seriesMax, seriesQuantile, sortQ, hnil]

/-- Claim C9 witness: column "N" has exactly one value so its std reports 0;
column "M" has none so its mean reports 0. -/
theorem statistical_summary_guarded_witness :
    (summary_col (colVals statWitTable.rows "N")).std = 0 ∧
    (summary_col (colVals statWitTable.rows "M")).mean = 0 := by
  constructor
  · exact (statistical_summary_guarded statWitTable ["N", "M"] "N" _
      (List.mem_cons_self _ _)).1 (by decide)
  · exact ((statistical_summary_guarded statWitTable ["N", "M"] "M" _
      (List.mem_cons_of_mem _ (List.mem_cons_self _ _))).2 (by decide)).1

/-- Claim C10: `_group_by_analysis` maps an unrecognised aggregation name to
the sum reduction instead of rejecting it, and returns an empty table when
the value column is absent. -/
theorem group_by_defaults (t : Table) (gcols : List String) (vcol : String)
    (agg : String) :
    (agg ∉ ["sum", "mean", "median", "count", "min", "max", "std"] →
      group_by_analysis t gcols vcol agg = group_by_analysis t gcols vcol "sum") ∧
    (vcol ∉ t.cols → group_by_analysis t gcols vcol agg = Except.ok []) := by
  constructor
  · intro h
    have h1 : ¬ agg = "sum" := by rintro rfl; exact h (by decide)
    have h2 : ¬ agg = "mean" := by rintro rfl; exact h (by decide)
    have h3 : ¬ agg = "median" := by rintro rfl; exact h (by decide)
    have h4 : ¬ agg = "count" := by rintro rfl; exact h (by decide)
    have h5 : ¬ agg = "min" := by rintro rfl; exact h (by decide)
    have h6 : ¬ agg = "max" := by rintro rfl; exact h (by decide)
    have h7 : ¬ agg = "std" := by rintro rfl; exact h (by decide)
    have hfn : ∀ vs, agg_fun agg vs = agg_fun "sum" vs := by
      intro vs
      unfold agg_fun
      rw [if_neg h1, if_neg h2, if_neg h3, if_neg h4, if_neg h5, if_neg h6, if_neg h7,
        if_pos rfl]
    unfold group_by_analysis
    split_ifs with hv hg
    · simp only [hfn]
    · rfl
    · rfl
  · intro h
    unfold group_by_analysis
    rw [if_neg h]

/-- Claim C10 witness: the made-up aggregation name behaves as sum, and a
missing value column gives an empty table. -/
theorem group_by_defaults_witness :
    group_by_analysis groupWitTable ["G"] "V" "frobnicate"
      = group_by_analysis groupWitTable ["G"] "V" "sum" ∧
    group_by_analysis groupWitTable ["G"] "W" "count" = Except.ok [] :=
  ⟨(group_by_defaults groupWitTable ["G"] "V" "frobnicate").1 (by decide),
   (group_by_defaults groupWitTable ["G"] "W" "count").2 (by decide)⟩

end SprintQuery
